import Mathlib

/-!
# GodServices: the in-app notification module (`src/js/notifications.js`)

A shallow embedding of the notification module.  The module-level variables
(`notifications`, `unreadCount`, `isOpen`) and the parts of the page they drive
(badge text and visibility, panel visibility, the alerts raised through
`showAlert`) become one explicit record, and every function of the module
becomes a function on that record.

Modelling conventions.
* `new Date()` is an explicit argument `now` (milliseconds since the epoch) and a
  `Date` is its time value, an `Int`.
* A value that may be the JavaScript `undefined` (or `null`) is an `Option`.
* `serviceCategory` is a string, as the booking schema has it; `status`,
  `customerId` and `workerId` may be absent.
* `unreadCount` is a `Nat`: it starts at `0` and is only incremented or reset,
  and the `2^53` increments at which a JavaScript number stops counting are out
  of reach of a page session.
* Strings are sequences of characters; the only string operations used
  (`includes`, `replace` with a one-character pattern, template literals) do not
  look inside a character.
* `statusMessages` is an object literal, so a property read on it also finds the
  properties of `Object.prototype`.
* `renderNotifications` writes markup computed from `notifications` and the
  clock and changes no variable of the module; it is left out, as are the
  timers that remove an alert again.
-/

namespace GodServices

/-! ## JavaScript string helpers -/

/-- Conversion of a possibly `undefined` string inside a template literal:
`undefined` is printed as the text "undefined". -/
def jsTemplate : Option String → String
  | some s => s
  | none => "undefined"

/-- Does the character list `s` begin with `pat`? -/
def startsWithChars : List Char → List Char → Bool
  | _, [] => true
  | [], _ :: _ => false
  | c :: cs, p :: ps => c == p && startsWithChars cs ps

/-- Does `pat` occur in `s` as a contiguous block? -/
def includesChars : List Char → List Char → Bool
  | [], pat => startsWithChars [] pat
  | c :: cs, pat => startsWithChars (c :: cs) pat || includesChars cs pat

/-- The method `String.prototype.includes` with a string argument. -/
def jsIncludes (s pat : String) : Bool :=
  includesChars s.data pat.data

/-- Replace the first occurrence of the character `p` by `r`, and only the
first one. -/
def replaceFirstChar (p r : Char) : List Char → List Char
  | [] => []
  | c :: cs => if c = p then r :: cs else c :: replaceFirstChar p r cs

/-- The call `s.replace(p, r)` of `String.prototype.replace` for a
one-character string pattern `p` and a one-character replacement `r`: a string
pattern (not a regular expression with the `g` flag) replaces the first
occurrence only. -/
def jsReplace (s : String) (p r : Char) : String :=
  ⟨replaceFirstChar p r s.data⟩

/-- Replace every occurrence of the character `p` by `r`: what "hyphens replaced
with spaces" asks for.  Used only to state properties, never by the code. -/
def replaceAllChar (p r : Char) (s : String) : String :=
  ⟨s.data.map (fun c => if c = p then r else c)⟩

/-! ## Data model -/

/-- An element of the `notifications` array.  `icon` is `none` when the stored
value is `undefined`. -/
structure NotificationEntry where
  icon : Option String
  message : String
  timestamp : Int
  unread : Bool
  deriving DecidableEq, Repr

/-- The module-level variables together with what they drive on the page. -/
structure NotificationState where
  /-- The array `notifications`, index 0 first. -/
  notifications : List NotificationEntry
  unreadCount : Nat
  isOpen : Bool
  /-- The `textContent` of `badgeEl`. -/
  badgeText : String
  /-- Whether `badgeEl` carries the class `hidden`. -/
  badgeHidden : Bool
  /-- Whether `panelEl` carries the class `hidden`. -/
  panelHidden : Bool
  /-- The messages passed to `showAlert`, oldest first. -/
  toasts : List String
  deriving DecidableEq, Repr

/-- A booking document, as a history query returns it and as a change event
carries it in `payload`. -/
structure BookingDoc where
  customerId : Option String
  workerId : Option String
  status : Option String
  serviceCategory : String
  /-- The time value of `new Date(doc.$updatedAt)`. -/
  updatedAt : Int
  deriving DecidableEq, Repr

/-- The argument of the subscription callback: `events` is `none` when the
field is missing. -/
structure RealtimeResponse where
  payload : BookingDoc
  events : Option (List String)
  deriving DecidableEq, Repr

/-- The state right after `createNotificationUI`: the module's initial values
and the markup it inserts (badge "0" and hidden, panel hidden). -/
def initialState : NotificationState :=
  { notifications := []
    unreadCount := 0
    isOpen := false
    badgeText := "0"
    badgeHidden := true
    panelHidden := true
    toasts := [] }

/-! ## The status table -/

/-- The value of a property read `statusMessages[key]`. -/
inductive StatusLookup where
  /-- One of the five own properties of the table. -/
  | own (icon text : String)
  /-- A property found on `Object.prototype`: a function or object, truthy,
  with neither an `icon` nor a `text` property. -/
  | inherited
  /-- The value `undefined`: no such property. -/
  | missing
  deriving DecidableEq, Repr

/-- The property names every object literal inherits from `Object.prototype`. -/
def objectPrototypeKeys : List String :=
  ["constructor", "hasOwnProperty", "isPrototypeOf", "propertyIsEnumerable",
   "toLocaleString", "toString", "valueOf", "__proto__", "__defineGetter__",
   "__defineSetter__", "__lookupGetter__", "__lookupSetter__"]

/-- The property read `statusMessages[key]` on the object literal
`statusMessages`. -/
def statusMessages (key : String) : StatusLookup :=
  if key = "pending" then .own "🕐" "New booking request received"
  else if key = "accepted" then .own "✅" "Booking has been accepted"
  else if key = "completed" then .own "🎉" "Job has been completed"
  else if key = "cancelled" then .own "❌" "Booking has been cancelled"
  else if key = "in-progress" then .own "🔧" "Job is in progress"
  else if key ∈ objectPrototypeKeys then .inherited
  else .missing

/-- The value bound to `statusInfo`, seen through its two property reads. -/
structure StatusInfo where
  icon : Option String
  text : Option String
  deriving DecidableEq, Repr

/-- The property key a possibly absent `doc.status` is converted to. -/
def jsPropertyKey : Option String → String
  | some s => s
  | none => "undefined"

/-- The expression
`statusMessages[doc.status] || { icon: '📋', text: 'Booking updated' }`. -/
def statusInfo (status : Option String) : StatusInfo :=
  match statusMessages (jsPropertyKey status) with
  | .own icon text => { icon := some icon, text := some text }
  | .inherited => { icon := none, text := none }
  | .missing => { icon := some "📋", text := some "Booking updated" }

/-- The template literal
`${statusInfo.text} — ${doc.serviceCategory.replace('-', ' ')}`. -/
def statusMessage (doc : BookingDoc) : String :=
  jsTemplate (statusInfo doc.status).text ++ " — " ++ jsReplace doc.serviceCategory '-' ' '

/-! ## Operations -/

/-- The function `updateBadge`. -/
def updateBadge (s : NotificationState) : NotificationState :=
  if s.unreadCount > 0 then
    { s with
      badgeText := if s.unreadCount > 9 then "9+" else toString s.unreadCount
      badgeHidden := false }
  else
    { s with badgeHidden := true }

/-- The function `addNotification`; `now` is the value of `new Date()`. -/
def addNotification (icon : Option String) (message : String) (now : Int)
    (s : NotificationState) : NotificationState :=
  let unshifted : List NotificationEntry :=
    { icon := icon, message := message, timestamp := now, unread := true } :: s.notifications
  -- Keep max 20
  let kept := if unshifted.length > 20 then unshifted.dropLast else unshifted
  let s1 := updateBadge { s with notifications := kept, unreadCount := s.unreadCount + 1 }
  -- Show a toast if panel is closed
  if !s1.isOpen then
    { s1 with toasts := s1.toasts ++ [jsTemplate icon ++ " " ++ message] }
  else s1

/-- The entry `loadExistingNotifications` pushes for one document. -/
def historyEntry (doc : BookingDoc) : NotificationEntry :=
  { icon := (statusInfo doc.status).icon
    message := statusMessage doc
    timestamp := doc.updatedAt
    unread := false }

/-- The function `loadExistingNotifications` from the point where the awaited
`listDocuments` settles: `none` is a rejected request (the `catch` branch only
logs), `some docs` is `response.documents`. -/
def loadExistingNotifications (response : Option (List BookingDoc))
    (s : NotificationState) : NotificationState :=
  match response with
  | none => s
  | some docs =>
    docs.foldl (fun st doc => { st with notifications := st.notifications ++ [historyEntry doc] }) s

/-- The test `isRelevant` of the subscription callback. -/
def isRelevant (userId role : String) (doc : BookingDoc) : Bool :=
  if role = "customer" then doc.customerId == some userId else doc.workerId == some userId

/-- The callback `subscribeToChanges` registers on the bookings channel. -/
def subscribeToChanges (userId role : String) (now : Int) (response : RealtimeResponse)
    (s : NotificationState) : NotificationState :=
  let doc := response.payload
  -- Only process events relevant to this user
  if !isRelevant userId role doc then s
  else
    let events := response.events.getD []
    let isUpdate := events.any (fun e => jsIncludes e ".update")
    let isCreate := events.any (fun e => jsIncludes e ".create")
    if isCreate then
      let icon := if role = "worker" then "📥" else "📤"
      let msg :=
        if role = "worker" then "New job request — " ++ jsReplace doc.serviceCategory '-' ' '
        else "Booking created — " ++ jsReplace doc.serviceCategory '-' ' '
      addNotification (some icon) msg now s
    else if isUpdate then
      addNotification (statusInfo doc.status).icon (statusMessage doc) now s
    else s

/-- The click listener of the bell. -/
def bellClick (s : NotificationState) : NotificationState :=
  let s1 := { s with isOpen := !s.isOpen }
  let s2 := { s1 with panelHidden := !s1.isOpen }
  if s2.isOpen then updateBadge { s2 with unreadCount := 0 } else s2

/-- The click listener of the document; `inPanel` is `panelEl.contains(e.target)`
and `onBell` is `e.target === bellEl`. -/
def documentClick (inPanel onBell : Bool) (s : NotificationState) : NotificationState :=
  if s.isOpen && !inPanel && !onBell then
    { s with isOpen := false, panelHidden := true }
  else s

/-- The click listener of the "Clear all" button. -/
def clearAll (s : NotificationState) : NotificationState :=
  updateBadge { s with notifications := [], unreadCount := 0 }

/-- The function `timeAgo`; `now` is the value of `new Date()`.  The divisors
are positive, so integer division is the floor of the quotient. -/
def timeAgo (now date : Int) : String :=
  let seconds := (now - date) / 1000
  if seconds < 60 then "Just now"
  else if seconds < 3600 then toString (seconds / 60) ++ "m ago"
  else if seconds < 86400 then toString (seconds / 3600) ++ "h ago"
  else toString (seconds / 86400) ++ "d ago"

/-! ## Runs of the module -/

/-- What can happen to the module after `createNotificationUI`. -/
inductive Action where
  /-- The subscription pushes an event. -/
  | event (now : Int) (response : RealtimeResponse)
  /-- The history request of `loadExistingNotifications` settles. -/
  | historyLoaded (response : Option (List BookingDoc))
  | bellClick
  | documentClick (inPanel onBell : Bool)
  | clearAll
  deriving DecidableEq, Repr

/-- One step of the module for a page initialised with `userId` and `role`. -/
def step (userId role : String) (s : NotificationState) : Action → NotificationState
  | .event now response => subscribeToChanges userId role now response s
  | .historyLoaded response => loadExistingNotifications response s
  | .bellClick => bellClick s
  | .documentClick inPanel onBell => documentClick inPanel onBell s
  | .clearAll => clearAll s

/-- The state after a sequence of actions, starting from `s`. -/
def run (userId role : String) (s : NotificationState) (actions : List Action) :
    NotificationState :=
  actions.foldl (step userId role) s

/-- A call of `addNotification`: its two arguments and the clock reading. -/
structure AddCall where
  icon : Option String
  message : String
  now : Int
  deriving DecidableEq, Repr

/-- The entry a call of `addNotification` creates. -/
def AddCall.entry (c : AddCall) : NotificationEntry :=
  { icon := c.icon, message := c.message, timestamp := c.now, unread := true }

/-- The state after a sequence of `addNotification` calls, first call first. -/
def addAll (calls : List AddCall) (s : NotificationState) : NotificationState :=
  calls.foldl (fun st c => addNotification c.icon c.message c.now st) s

/-! ## Sample inputs -/

/-- A change event on a booking of worker "W1" placed by customer "C7". -/
def sampleEvent (label : String) : RealtimeResponse :=
  { payload :=
      { customerId := some "C7", workerId := some "W1", status := some "accepted",
        serviceCategory := "home-cleaning", updatedAt := 1000 }
    events := some [label] }

/-- A create event for worker "U1", pushed at time `now`. -/
def liveCreate (now : Int) : Action :=
  .event now
    { payload := { customerId := some "C7", workerId := some "U1", status := some "pending",
                   serviceCategory := "plumbing", updatedAt := now }
      events := some ["bookings.documents.b1.create"] }

/-- The answer to the history request: one booking of worker "U1". -/
def historyAnswer : Action :=
  .historyLoaded
    (some [{ customerId := some "C7", workerId := some "U1", status := some "accepted",
             serviceCategory := "plumbing", updatedAt := 0 }])

/-- Twenty live events arrive while the history request is in flight, then the
request settles. -/
def eventsBeforeHistory : List Action :=
  (List.range 20).map (fun i => liveCreate (Int.ofNat i)) ++ [historyAnswer]

/-- The five status names that are own properties of `statusMessages`. -/
def recognizedStatuses : List String :=
  ["pending", "accepted", "completed", "cancelled", "in-progress"]

/-- A history document with a recognized status and a category of three words. -/
def threeWordDoc : BookingDoc :=
  { customerId := some "C7", workerId := some "U1", status := some "pending",
    serviceCategory := "deep-home-cleaning", updatedAt := 1000 }

/-- A history document whose status names a property of `Object.prototype`. -/
def inheritedStatusDoc : BookingDoc :=
  { customerId := some "C7", workerId := some "U1", status := some "constructor",
    serviceCategory := "deep-home-cleaning", updatedAt := 1000 }

/-! ## The history entry in the words of the specification -/

/-- The status lookup as the specification words it, icon first: each of the
five recognized statuses has its fixed pair, and every other status, or none,
has the fallback pair. -/
def specStatusInfo : Option String → String × String
  | none => ("📋", "Booking updated")
  | some status =>
    if status = "pending" then ("🕐", "New booking request received")
    else if status = "accepted" then ("✅", "Booking has been accepted")
    else if status = "completed" then ("🎉", "Job has been completed")
    else if status = "cancelled" then ("❌", "Booking has been cancelled")
    else if status = "in-progress" then ("🔧", "Job is in progress")
    else ("📋", "Booking updated")

/-- The entry the specification describes for a history document: a read entry
with the pair of the status lookup, the category with its hyphens replaced with
spaces, and the update time of the document. -/
def specHistoryEntry (doc : BookingDoc) : NotificationEntry :=
  { icon := some (specStatusInfo doc.status).1
    message := (specStatusInfo doc.status).2 ++ " — " ++
      replaceAllChar '-' ' ' doc.serviceCategory
    timestamp := doc.updatedAt
    unread := false }

set_option maxRecDepth 100000

/-! ## Facts about the string helpers -/

theorem startsWithChars_iff (s pat : List Char) :
    startsWithChars s pat = true ↔ ∃ b, s = pat ++ b := by
  induction pat generalizing s with
  | nil => cases s <;> simp [startsWithChars]
  | cons p ps ih =>
    cases s with
    | nil => simp [startsWithChars]
    | cons c cs =>
      simp only [startsWithChars, Bool.and_eq_true, beq_iff_eq, ih, List.cons_append,
        List.cons.injEq]
      constructor
      · rintro ⟨rfl, b, rfl⟩
        exact ⟨b, rfl, rfl⟩
      · rintro ⟨b, rfl, rfl⟩
        exact ⟨rfl, b, rfl⟩

/-- The model of `includes` is the substring test. -/
theorem includesChars_iff (s pat : List Char) :
    includesChars s pat = true ↔ ∃ a b, s = a ++ pat ++ b := by
  induction s with
  | nil =>
    simp only [includesChars, startsWithChars_iff]
    constructor
    · rintro ⟨b, hb⟩
      exact ⟨[], b, by simpa using hb⟩
    · rintro ⟨a, b, hab⟩
      have h1 : a = [] := by
        cases a with
        | nil => rfl
        | cons x xs => simp at hab
      subst h1
      exact ⟨b, by simpa using hab⟩
  | cons c cs ih =>
    simp only [includesChars, Bool.or_eq_true, startsWithChars_iff, ih]
    constructor
    · rintro (⟨b, hb⟩ | ⟨a, b, hab⟩)
      · exact ⟨[], b, by simpa using hb⟩
      · exact ⟨c :: a, b, by simp [hab]⟩
    · rintro ⟨a, b, hab⟩
      cases a with
      | nil => exact Or.inl ⟨b, by simpa using hab⟩
      | cons x xs =>
        simp only [List.cons_append, List.cons.injEq] at hab
        exact Or.inr ⟨xs, b, by simpa using hab.2⟩

/-- On a string with at most one occurrence of `p`, replacing the first
occurrence is replacing all of them. -/
theorem replaceFirstChar_eq_map (p r : Char) (cs : List Char) (h : cs.count p ≤ 1) :
    replaceFirstChar p r cs = cs.map (fun c => if c = p then r else c) := by
  induction cs with
  | nil => rfl
  | cons c cs ih =>
    by_cases hc : c = p
    · subst hc
      have h0 : cs.count c = 0 := by
        simp only [List.count_cons_self] at h
        omega
      have hnot : ∀ x ∈ cs, ¬ x = c := by
        intro x hx hxc
        subst hxc
        exact (List.count_eq_zero.1 h0) hx
      have hmap : cs.map (fun x => if x = c then r else x) = cs := by
        conv_rhs => rw [← List.map_id cs]
        apply List.map_congr_left
        intro x hx
        simp [hnot x hx]
      simp [replaceFirstChar, hmap]
    · have h1 : cs.count p ≤ 1 := by
        rw [List.count_cons_of_ne (fun hpc => hc hpc.symm)] at h
        exact h
      simp [replaceFirstChar, hc, ih h1]

theorem jsReplace_eq_replaceAllChar (s : String) (p r : Char) (h : s.data.count p ≤ 1) :
    jsReplace s p r = replaceAllChar p r s := by
  simp [jsReplace, replaceAllChar, replaceFirstChar_eq_map p r s.data h]

/-- Integer division by a positive literal is `Math.floor` of the quotient. -/
theorem ediv_eq_floor (a : Int) (d : Nat) : a / (d : Int) = ⌊(a : ℚ) / (d : ℚ)⌋ :=
  (Rat.floor_intCast_div_natCast a d).symm

/-! ## Facts about the status table -/

theorem statusInfo_recognized :
    statusInfo (some "pending") = { icon := some "🕐", text := some "New booking request received" } ∧
    statusInfo (some "accepted") = { icon := some "✅", text := some "Booking has been accepted" } ∧
    statusInfo (some "completed") = { icon := some "🎉", text := some "Job has been completed" } ∧
    statusInfo (some "cancelled") = { icon := some "❌", text := some "Booking has been cancelled" } ∧
    statusInfo (some "in-progress") = { icon := some "🔧", text := some "Job is in progress" } := by
  decide

/-- Outside the five recognized names and the names inherited from
`Object.prototype`, the lookup falls back. -/
theorem statusInfo_fallback (key : String) (h5 : key ∉ recognizedStatuses)
    (hp : key ∉ objectPrototypeKeys) :
    statusInfo (some key) = { icon := some "📋", text := some "Booking updated" } := by
  simp only [recognizedStatuses, List.mem_cons, List.mem_singleton, not_or, List.mem_nil_iff,
    or_false] at h5
  obtain ⟨h1, h2, h3, h4, h5⟩ := h5
  simp [statusInfo, statusMessages, jsPropertyKey, h1, h2, h3, h4, h5, hp]

/-- A missing `status` falls back as well. -/
theorem statusInfo_none :
    statusInfo none = { icon := some "📋", text := some "Booking updated" } := by
  decide

/-! ## Facts about the operations -/


theorem updateBadge_notifications (s : NotificationState) :
    (updateBadge s).notifications = s.notifications := by
  unfold updateBadge; split <;> rfl

theorem updateBadge_unreadCount (s : NotificationState) :
    (updateBadge s).unreadCount = s.unreadCount := by
  unfold updateBadge; split <;> rfl

theorem updateBadge_isOpen (s : NotificationState) :
    (updateBadge s).isOpen = s.isOpen := by
  unfold updateBadge; split <;> rfl

theorem addNotification_notifications (icon : Option String) (message : String) (now : Int)
    (s : NotificationState) :
    (addNotification icon message now s).notifications =
      if 20 ≤ s.notifications.length then
        (({ icon := icon, message := message, timestamp := now, unread := true } :
          NotificationEntry) :: s.notifications).dropLast
      else
        { icon := icon, message := message, timestamp := now, unread := true } ::
          s.notifications := by
  unfold addNotification
  dsimp only
  have hcond : (s.notifications.length + 1 > 20) ↔ (20 ≤ s.notifications.length) := by omega
  by_cases hopen : s.isOpen = true <;> by_cases hlen : 20 ≤ s.notifications.length <;>
    simp [updateBadge_notifications, updateBadge_isOpen, hopen, hlen, hcond]

theorem addNotification_unreadCount (icon : Option String) (message : String) (now : Int)
    (s : NotificationState) :
    (addNotification icon message now s).unreadCount = s.unreadCount + 1 := by
  unfold addNotification
  dsimp only
  by_cases hopen : s.isOpen = true <;>
    simp [updateBadge_unreadCount, updateBadge_isOpen, hopen]

theorem addNotification_isOpen (icon : Option String) (message : String) (now : Int)
    (s : NotificationState) :
    (addNotification icon message now s).isOpen = s.isOpen := by
  unfold addNotification
  dsimp only
  by_cases hopen : s.isOpen = true <;> simp [updateBadge_isOpen, hopen]

/-- Below capacity or at capacity, `addNotification` puts the new entry in front
and keeps the first 20. -/
theorem addNotification_take (icon : Option String) (message : String) (now : Int)
    (s : NotificationState) (h : s.notifications.length ≤ 20) :
    (addNotification icon message now s).notifications =
      (({ icon := icon, message := message, timestamp := now, unread := true } :
        NotificationEntry) :: s.notifications).take 20 := by
  rw [addNotification_notifications]
  split
  · have h20 : s.notifications.length = 20 := by omega
    rw [List.dropLast_eq_take]
    simp [h20]
  · rw [List.take_of_length_le]
    simp only [List.length_cons]
    omega

theorem take_append_take {α : Type} (n : Nat) (xs ys : List α) :
    (xs ++ ys.take n).take n = (xs ++ ys).take n := by
  rw [List.take_append_eq_append_take, List.take_append_eq_append_take, List.take_take]
  congr 2
  omega

theorem addAll_nil (s : NotificationState) : addAll [] s = s := rfl

theorem addAll_cons (c : AddCall) (cs : List AddCall) (s : NotificationState) :
    addAll (c :: cs) s = addAll cs (addNotification c.icon c.message c.now s) := rfl

theorem addAll_append (cs ds : List AddCall) (s : NotificationState) :
    addAll (cs ++ ds) s = addAll ds (addAll cs s) := by
  unfold addAll; rw [List.foldl_append]

/-- A run of `addNotification` calls from a list within capacity leaves the
calls newest first, followed by what was there, cut to 20 entries. -/
theorem addAll_notifications (calls : List AddCall) (s : NotificationState)
    (h : s.notifications.length ≤ 20) :
    (addAll calls s).notifications =
      ((calls.reverse.map AddCall.entry) ++ s.notifications).take 20 := by
  induction calls generalizing s with
  | nil => simp [addAll_nil, List.take_of_length_le h]
  | cons c cs ih =>
    rw [addAll_cons, ih]
    · rw [addNotification_take _ _ _ _ h, take_append_take]
      simp [AddCall.entry]
    · rw [addNotification_take _ _ _ _ h]
      simp

theorem addAll_unreadCount (calls : List AddCall) (s : NotificationState) :
    (addAll calls s).unreadCount = s.unreadCount + calls.length := by
  induction calls generalizing s with
  | nil => simp [addAll_nil]
  | cons c cs ih =>
    rw [addAll_cons, ih, addNotification_unreadCount]
    simp only [List.length_cons]
    omega

theorem addAll_isOpen (calls : List AddCall) (s : NotificationState) :
    (addAll calls s).isOpen = s.isOpen := by
  induction calls generalizing s with
  | nil => simp [addAll_nil]
  | cons c cs ih => rw [addAll_cons, ih, addNotification_isOpen]

theorem addNotification_take_max (icon : Option String) (message : String) (now : Int)
    (s : NotificationState) :
    (addNotification icon message now s).notifications =
      (({ icon := icon, message := message, timestamp := now, unread := true } :
        NotificationEntry) :: s.notifications).take (max 20 s.notifications.length) := by
  rw [addNotification_notifications]
  split
  · rename_i h
    rw [List.dropLast_eq_take, Nat.max_eq_right h]
    simp
  · rename_i h
    rw [List.take_of_length_le]
    simp only [List.length_cons]
    omega

theorem any_eq_true_iff_exists (events : List String) (marker : String) :
    events.any (fun e => jsIncludes e marker) = true ↔
      ∃ e ∈ events, jsIncludes e marker = true := by
  simp [List.any_eq_true]

theorem loadExistingNotifications_some (docs : List BookingDoc) (s : NotificationState) :
    loadExistingNotifications (some docs) s =
      { s with notifications := s.notifications ++ docs.map historyEntry } := by
  induction docs generalizing s with
  | nil => simp [loadExistingNotifications]
  | cons d ds ih =>
    have hstep : loadExistingNotifications (some (d :: ds)) s =
        loadExistingNotifications (some ds)
          { s with notifications := s.notifications ++ [historyEntry d] } := rfl
    rw [hstep, ih]
    simp

/-- The history load lengthens the list by the number of documents, whatever
its length was. -/
theorem loadExistingNotifications_length (docs : List BookingDoc) (s : NotificationState) :
    (loadExistingNotifications (some docs) s).notifications.length =
      s.notifications.length + docs.length := by
  rw [loadExistingNotifications_some]
  simp

theorem subscribeToChanges_cases (userId role : String) (now : Int)
    (response : RealtimeResponse) (s : NotificationState) :
    subscribeToChanges userId role now response s = s ∨
      ∃ icon message, subscribeToChanges userId role now response s =
        addNotification icon message now s := by
  unfold subscribeToChanges
  dsimp only
  split
  · exact Or.inl rfl
  · split
    · exact Or.inr ⟨_, _, rfl⟩
    · split
      · exact Or.inr ⟨_, _, rfl⟩
      · exact Or.inl rfl

/-- Every step other than a settled history request keeps the list within 20
entries. -/
theorem step_keeps_capacity (userId role : String) (s : NotificationState) (a : Action)
    (hcap : s.notifications.length ≤ 20) (hlive : ∀ r, a ≠ Action.historyLoaded r) :
    (step userId role s a).notifications.length ≤ 20 := by
  cases a with
  | event now response =>
    rcases subscribeToChanges_cases userId role now response s with h | ⟨icon, message, h⟩
    · simp only [step, h]; exact hcap
    · simp only [step, h]
      rw [addNotification_take _ _ _ _ hcap]
      simp
  | historyLoaded r => exact absurd rfl (hlive r)
  | bellClick =>
    simp only [step, bellClick]
    split
    · simp only [updateBadge_notifications]; exact hcap
    · exact hcap
  | documentClick inPanel onBell =>
    simp only [step, documentClick]
    split
    · exact hcap
    · exact hcap
  | clearAll =>
    simp [step, clearAll, updateBadge_notifications]

/-- Whatever the documents hold, the history load keeps the entries that were
there, in front and in order, adds one read entry per document in the returned
order with the update time of its document, and touches nothing else. -/
theorem loadExistingNotifications_structure (docs : List BookingDoc) (s : NotificationState) :
    (loadExistingNotifications (some docs) s).notifications.take s.notifications.length =
      s.notifications ∧
    ((loadExistingNotifications (some docs) s).notifications.drop
        s.notifications.length).map (fun n => n.timestamp) = docs.map (fun d => d.updatedAt) ∧
    ((loadExistingNotifications (some docs) s).notifications.drop
        s.notifications.length).map (fun n => n.unread) = docs.map (fun _ => false) ∧
    (loadExistingNotifications (some docs) s).unreadCount = s.unreadCount ∧
    (loadExistingNotifications (some docs) s).isOpen = s.isOpen ∧
    (loadExistingNotifications (some docs) s).toasts = s.toasts := by
  rw [loadExistingNotifications_some]
  simp [historyEntry, Function.comp_def]

/-- A rejected history request changes nothing. -/
theorem loadExistingNotifications_none (s : NotificationState) :
    loadExistingNotifications none s = s := rfl

theorem statusInfo_eq_specStatusInfo (status : Option String)
    (hkey : jsPropertyKey status ∉ objectPrototypeKeys) :
    statusInfo status =
      { icon := some (specStatusInfo status).1, text := some (specStatusInfo status).2 } := by
  cases status with
  | none => decide
  | some k =>
    simp only [jsPropertyKey] at hkey
    simp only [statusInfo, statusMessages, jsPropertyKey, specStatusInfo, hkey, if_false]
    split_ifs <;> rfl

/-- On a document whose status is not a property name of `Object.prototype` and
whose category has at most one hyphen, the code builds the entry the
specification describes. -/
theorem historyEntry_eq_specHistoryEntry (doc : BookingDoc)
    (hkey : jsPropertyKey doc.status ∉ objectPrototypeKeys)
    (hcat : doc.serviceCategory.data.count '-' ≤ 1) :
    historyEntry doc = specHistoryEntry doc := by
  simp [historyEntry, specHistoryEntry, statusMessage, statusInfo_eq_specStatusInfo _ hkey,
    jsTemplate, jsReplace_eq_replaceAllChar _ _ _ hcat]

/-- The scenario of the specification: as worker "U1", one pending
"home-cleaning" document gives one read entry with icon 🕐 and message
"New booking request received — home cleaning"; a create event for that worker
with category "plumbing" then puts the unread entry "New job request — plumbing"
in front and makes `unreadCount` 1. -/
theorem history_then_create_scenario
    (customer : Option String) (updated now : Int) (status : Option String) :
    (loadExistingNotifications
        (some [{ customerId := customer, workerId := some "U1", status := some "pending",
                 serviceCategory := "home-cleaning", updatedAt := updated }])
        initialState).notifications =
      [{ icon := some "🕐", message := "New booking request received — home cleaning",
         timestamp := updated, unread := false }] ∧
    (subscribeToChanges "U1" "worker" now
        { payload := { customerId := customer, workerId := some "U1", status := status,
                       serviceCategory := "plumbing", updatedAt := updated }
          events := some ["databases.699172230026429d954f.collections.bookings.documents.b2.create"] }
        (loadExistingNotifications
          (some [{ customerId := customer, workerId := some "U1", status := some "pending",
                   serviceCategory := "home-cleaning", updatedAt := updated }])
          initialState)).notifications =
      [{ icon := some "📥", message := "New job request — plumbing", timestamp := now,
         unread := true },
       { icon := some "🕐", message := "New booking request received — home cleaning",
         timestamp := updated, unread := false }] ∧
    (subscribeToChanges "U1" "worker" now
        { payload := { customerId := customer, workerId := some "U1", status := status,
                       serviceCategory := "plumbing", updatedAt := updated }
          events := some ["databases.699172230026429d954f.collections.bookings.documents.b2.create"] }
        (loadExistingNotifications
          (some [{ customerId := customer, workerId := some "U1", status := some "pending",
                   serviceCategory := "home-cleaning", updatedAt := updated }])
          initialState)).unreadCount = 1 := by
  have hload := loadExistingNotifications_some
  have hhome : jsReplace "home-cleaning" '-' ' ' = "home cleaning" := by decide
  have hplumb : jsReplace "plumbing" '-' ' ' = "plumbing" := by decide
  have hpending : statusInfo (some "pending") =
      { icon := some "🕐", text := some "New booking request received" } := by decide
  have hlabel : jsIncludes
      "databases.699172230026429d954f.collections.bookings.documents.b2.create" ".create" =
        true := by decide
  have hrel : ∀ d : BookingDoc, d.workerId = some "U1" → isRelevant "U1" "worker" d = true := by
    intro d hd
    simp [isRelevant, hd]
  refine ⟨?_, ?_, ?_⟩
  · rw [hload]
    simp [historyEntry, statusMessage, hpending, hhome, initialState, jsTemplate]
  · rw [hload]
    simp [subscribeToChanges, hrel, hlabel, addNotification_notifications, historyEntry,
      statusMessage, hpending, hhome, hplumb, initialState, jsTemplate]
  · rw [hload]
    simp [subscribeToChanges, hrel, hlabel, addNotification_unreadCount, initialState]

/-! ## C1: the list after a run of additions -/

/-- Claim C1: starting from the empty list, after any sequence of `addNotification`
calls and nothing else (so in particular for every number of calls from 0 to 30)
the list holds the entries of the calls in reverse order of insertion, cut to the
20 newest; its length is `min N 20`; and after at least one call its first
element is the entry created by the most recent call. -/
theorem addNotification_run_newest_first (calls : List AddCall) (last : AddCall) :
    (addAll calls initialState).notifications = (calls.reverse.map AddCall.entry).take 20 ∧
    (addAll calls initialState).notifications.length = min calls.length 20 ∧
    (addAll (calls ++ [last]) initialState).notifications.head? = some last.entry := by
  have hinit : initialState.notifications.length ≤ 20 := by simp [initialState]
  have hrun : ∀ cs : List AddCall,
      (addAll cs initialState).notifications = (cs.reverse.map AddCall.entry).take 20 := by
    intro cs
    rw [addAll_notifications cs initialState hinit]
    simp [initialState]
  refine ⟨hrun calls, ?_, ?_⟩
  · rw [hrun calls]
    simp [Nat.min_comm]
  · rw [hrun (calls ++ [last])]
    simp

/-! ## C2: the capacity of the list -/

/-- Claim C2, evaluated where it fails: worker "U1" receives twenty create
events while the history request is still in flight; when the request then
settles with one document, `loadExistingNotifications` pushes it without looking
at the length and the list has 21 entries.  A further live event does not bring
the list back to 20: `addNotification` drops one entry for the one it adds. -/
theorem history_load_after_live_events_exceeds_capacity :
    (run "U1" "worker" initialState eventsBeforeHistory).notifications.length = 21 ∧
    (run "U1" "worker" initialState
      (eventsBeforeHistory ++ [liveCreate 20])).notifications.length = 21 := by
  decide

/-! ## C3: the relevance filter -/

/-- Claim C3: an event that fails the relevance test leaves the whole state
(entries, unread count, panel flag and the rest) as it was, and an event that
passes it is processed: the callback is the classification by labels, one
`addNotification` call for a create or an update label.  For role `customer` the
test is `customerId = userId`, for role `worker` it is `workerId = userId`.
In particular an event of worker "W1" whose customer is someone else is
discarded for user "W1" in role `customer`, and for user "W1" in role `worker`
it passes the test and is processed as a worker event. -/
theorem irrelevant_event_discarded (userId role : String) (now : Int)
    (response : RealtimeResponse) (s : NotificationState) :
    (isRelevant userId role response.payload = false →
      subscribeToChanges userId role now response s = s) ∧
    (isRelevant userId role response.payload = true →
      subscribeToChanges userId role now response s =
        if (response.events.getD []).any (fun e => jsIncludes e ".create") = true then
          addNotification (some (if role = "worker" then "📥" else "📤"))
            ((if role = "worker" then "New job request — " else "Booking created — ") ++
              jsReplace response.payload.serviceCategory '-' ' ') now s
        else if (response.events.getD []).any (fun e => jsIncludes e ".update") = true then
          addNotification (statusInfo response.payload.status).icon
            (statusMessage response.payload) now s
        else s) ∧
    (isRelevant userId "customer" response.payload = true ↔
      response.payload.customerId = some userId) ∧
    (isRelevant userId "worker" response.payload = true ↔
      response.payload.workerId = some userId) ∧
    (response.payload.customerId ≠ some userId →
      subscribeToChanges userId "customer" now response s = s) ∧
    (response.payload.workerId ≠ some userId →
      subscribeToChanges userId "worker" now response s = s) ∧
    (response.payload.workerId = some "W1" → response.payload.customerId ≠ some "W1" →
      subscribeToChanges "W1" "customer" now response s = s ∧
      isRelevant "W1" "worker" response.payload = true ∧
      subscribeToChanges "W1" "worker" now response s =
        (if (response.events.getD []).any (fun e => jsIncludes e ".create") = true then
          addNotification (some "📥")
            ("New job request — " ++ jsReplace response.payload.serviceCategory '-' ' ') now s
        else if (response.events.getD []).any (fun e => jsIncludes e ".update") = true then
          addNotification (statusInfo response.payload.status).icon
            (statusMessage response.payload) now s
        else s) ∧
      ((response.events.getD []).any (fun e => jsIncludes e ".create") = true →
        (subscribeToChanges "W1" "worker" now response s).notifications.head? =
          some { icon := some "📥"
                 message := "New job request — " ++
                   jsReplace response.payload.serviceCategory '-' ' '
                 timestamp := now
                 unread := true } ∧
        (subscribeToChanges "W1" "worker" now response s).unreadCount = s.unreadCount + 1)) := by
  have hgen : ∀ r : String, isRelevant userId r response.payload = false →
      subscribeToChanges userId r now response s = s := by
    intro r h
    simp [subscribeToChanges, h]
  have hproc : ∀ u r : String, isRelevant u r response.payload = true →
      subscribeToChanges u r now response s =
        if (response.events.getD []).any (fun e => jsIncludes e ".create") = true then
          addNotification (some (if r = "worker" then "📥" else "📤"))
            ((if r = "worker" then "New job request — " else "Booking created — ") ++
              jsReplace response.payload.serviceCategory '-' ' ') now s
        else if (response.events.getD []).any (fun e => jsIncludes e ".update") = true then
          addNotification (statusInfo response.payload.status).icon
            (statusMessage response.payload) now s
        else s := by
    intro u r h
    unfold subscribeToChanges
    dsimp only
    rw [h]
    by_cases hr : r = "worker"
    · subst hr
      simp
    · simp [hr]
  have hc : isRelevant userId "customer" response.payload = true ↔
      response.payload.customerId = some userId := by
    simp [isRelevant]
  have hw : isRelevant userId "worker" response.payload = true ↔
      response.payload.workerId = some userId := by
    simp [isRelevant]
  have hdc : ∀ u : String, response.payload.customerId ≠ some u →
      subscribeToChanges u "customer" now response s = s := by
    intro u h
    simp [subscribeToChanges, isRelevant, h]
  refine ⟨hgen role, hproc userId role, hc, hw, hdc userId, ?_, ?_⟩
  · intro h
    simp [subscribeToChanges, isRelevant, h]
  · intro h1 h2
    have hrel : isRelevant "W1" "worker" response.payload = true := by
      simp [isRelevant, h1]
    have hbranch := hproc "W1" "worker" hrel
    simp only [if_true] at hbranch
    refine ⟨hdc "W1" h2, hrel, hbranch, ?_⟩
    intro hcreate
    rw [hbranch, if_pos hcreate, addNotification_take_max, addNotification_unreadCount]
    refine ⟨?_, rfl⟩
    have hpos : 0 < max 20 s.notifications.length := by omega
    obtain ⟨k, hk⟩ := Nat.exists_eq_succ_of_ne_zero (Nat.pos_iff_ne_zero.1 hpos)
    rw [hk]
    simp

/-- The event of worker "W1" and customer "C7": discarded for "W1" as customer
and for "W2" as worker; for "W1" as worker it passes the test and its entry is
added in front, unread, with the counter at 1. -/
theorem irrelevant_event_discarded_witness :
    subscribeToChanges "W1" "customer" 5000 (sampleEvent "bookings.documents.b1.create")
      initialState = initialState ∧
    subscribeToChanges "W2" "worker" 5000 (sampleEvent "bookings.documents.b1.create")
      initialState = initialState ∧
    isRelevant "W1" "worker" (sampleEvent "bookings.documents.b1.create").payload = true ∧
    (subscribeToChanges "W1" "worker" 5000 (sampleEvent "bookings.documents.b1.create")
      initialState).notifications.head? =
        some { icon := some "📥", message := "New job request — home cleaning",
               timestamp := 5000, unread := true } ∧
    (subscribeToChanges "W1" "worker" 5000 (sampleEvent "bookings.documents.b1.create")
      initialState).unreadCount = 1 ∧
    subscribeToChanges "W1" "worker" 5000 (sampleEvent "bookings.documents.b1.create")
      initialState =
        addNotification (some "📥") "New job request — home cleaning" 5000 initialState := by
  have hcust := irrelevant_event_discarded "W1" "customer" 5000
    (sampleEvent "bookings.documents.b1.create") initialState
  have hother := irrelevant_event_discarded "W2" "worker" 5000
    (sampleEvent "bookings.documents.b1.create") initialState
  have hw1 := hcust.2.2.2.2.2.2 rfl (by decide)
  have hproc := (irrelevant_event_discarded "W1" "worker" 5000
    (sampleEvent "bookings.documents.b1.create") initialState).2.1 (by decide)
  have hadded := hw1.2.2.2 (by decide)
  refine ⟨hcust.1 (by decide), hother.2.2.2.2.2.1 (by decide), hw1.2.1, ?_, ?_, ?_⟩
  · rw [hadded.1]; decide
  · rw [hadded.2]; decide
  · rw [hproc]; decide

/-! ## C4: kind resolution -/

/-- Claim C4: for a relevant event, a label that contains the create marker
makes the handler one `addNotification` call with the creation icon and text,
whether or not an update marker is present too; with no create marker, a label
that contains the update marker makes it one `addNotification` call with the
status icon and text; in both cases the new list is the new entry in front of
the old ones, with at most the last one dropped.  With neither marker, and so
for a missing or empty label list, the state is unchanged. -/
theorem event_kind_resolution (userId role : String) (now : Int) (response : RealtimeResponse)
    (s : NotificationState) (hrel : isRelevant userId role response.payload = true) :
    ((∃ e ∈ response.events.getD [], jsIncludes e ".create" = true) →
      subscribeToChanges userId role now response s =
        addNotification (some (if role = "worker" then "📥" else "📤"))
          ((if role = "worker" then "New job request — " else "Booking created — ") ++
            jsReplace response.payload.serviceCategory '-' ' ') now s ∧
      (subscribeToChanges userId role now response s).notifications =
        (({ icon := some (if role = "worker" then "📥" else "📤")
            message := (if role = "worker" then "New job request — " else "Booking created — ") ++
              jsReplace response.payload.serviceCategory '-' ' '
            timestamp := now
            unread := true } : NotificationEntry) :: s.notifications).take
          (max 20 s.notifications.length)) ∧
    ((¬ ∃ e ∈ response.events.getD [], jsIncludes e ".create" = true) →
      (∃ e ∈ response.events.getD [], jsIncludes e ".update" = true) →
      subscribeToChanges userId role now response s =
        addNotification (statusInfo response.payload.status).icon
          (statusMessage response.payload) now s ∧
      (subscribeToChanges userId role now response s).notifications =
        (({ icon := (statusInfo response.payload.status).icon
            message := statusMessage response.payload
            timestamp := now
            unread := true } : NotificationEntry) :: s.notifications).take
          (max 20 s.notifications.length)) ∧
    ((¬ ∃ e ∈ response.events.getD [], jsIncludes e ".create" = true) →
      (¬ ∃ e ∈ response.events.getD [], jsIncludes e ".update" = true) →
      subscribeToChanges userId role now response s = s) ∧
    ((response.events = none ∨ response.events = some []) →
      subscribeToChanges userId role now response s = s) := by
  have hcreate : (∃ e ∈ response.events.getD [], jsIncludes e ".create" = true) →
      subscribeToChanges userId role now response s =
        addNotification (some (if role = "worker" then "📥" else "📤"))
          ((if role = "worker" then "New job request — " else "Booking created — ") ++
            jsReplace response.payload.serviceCategory '-' ' ') now s := by
    intro hc
    have hany := (any_eq_true_iff_exists (response.events.getD []) ".create").2 hc
    unfold subscribeToChanges
    by_cases hr : role = "worker"
    · subst hr
      simp [hrel, hany]
    · simp [hrel, hany, hr]
  have hupdate : (¬ ∃ e ∈ response.events.getD [], jsIncludes e ".create" = true) →
      (∃ e ∈ response.events.getD [], jsIncludes e ".update" = true) →
      subscribeToChanges userId role now response s =
        addNotification (statusInfo response.payload.status).icon
          (statusMessage response.payload) now s := by
    intro hc hu
    have hany := (any_eq_true_iff_exists (response.events.getD []) ".update").2 hu
    have hnone : (response.events.getD []).any (fun e => jsIncludes e ".create") = false := by
      rw [Bool.eq_false_iff]
      intro h
      exact hc ((any_eq_true_iff_exists _ _).1 h)
    unfold subscribeToChanges
    simp [hrel, hany, hnone]
  have hother : (¬ ∃ e ∈ response.events.getD [], jsIncludes e ".create" = true) →
      (¬ ∃ e ∈ response.events.getD [], jsIncludes e ".update" = true) →
      subscribeToChanges userId role now response s = s := by
    intro hc hu
    have hnc : (response.events.getD []).any (fun e => jsIncludes e ".create") = false := by
      rw [Bool.eq_false_iff]
      intro h
      exact hc ((any_eq_true_iff_exists _ _).1 h)
    have hnu : (response.events.getD []).any (fun e => jsIncludes e ".update") = false := by
      rw [Bool.eq_false_iff]
      intro h
      exact hu ((any_eq_true_iff_exists _ _).1 h)
    unfold subscribeToChanges
    simp [hrel, hnc, hnu]
  refine ⟨?_, ?_, hother, ?_⟩
  · intro hc
    refine ⟨hcreate hc, ?_⟩
    rw [hcreate hc, addNotification_take_max]
  · intro hc hu
    refine ⟨hupdate hc hu, ?_⟩
    rw [hupdate hc hu, addNotification_take_max]
  · intro hempty
    have hnil : response.events.getD [] = [] := by
      rcases hempty with h | h <;> simp [h]
    apply hother <;> simp [hnil]

/-- The event of worker "W1" with an update label, with a create label next to
an update label, with a delete label, and without a label list. -/
theorem event_kind_resolution_witness :
    (subscribeToChanges "W1" "worker" 5000
        (sampleEvent "bookings.documents.b1.update") initialState).notifications =
      [{ icon := some "✅", message := "Booking has been accepted — home cleaning",
         timestamp := 5000, unread := true }] ∧
    (subscribeToChanges "W1" "worker" 5000
        { sampleEvent "bookings.documents.b1.update" with
          events := some ["bookings.documents.b1.update", "bookings.documents.b1.create"] }
        initialState).notifications =
      [{ icon := some "📥", message := "New job request — home cleaning",
         timestamp := 5000, unread := true }] ∧
    subscribeToChanges "W1" "worker" 5000
        (sampleEvent "bookings.documents.b1.delete") initialState = initialState ∧
    subscribeToChanges "W1" "worker" 5000
        { sampleEvent "bookings.documents.b1.update" with events := none }
        initialState = initialState :=
  ⟨((event_kind_resolution "W1" "worker" 5000 (sampleEvent "bookings.documents.b1.update")
      initialState (by decide)).2.1 (by decide) (by decide)).2,
   ((event_kind_resolution "W1" "worker" 5000
      { sampleEvent "bookings.documents.b1.update" with
        events := some ["bookings.documents.b1.update", "bookings.documents.b1.create"] }
      initialState (by decide)).1 (by decide)).2,
   (event_kind_resolution "W1" "worker" 5000 (sampleEvent "bookings.documents.b1.delete")
      initialState (by decide)).2.2.1 (by decide) (by decide),
   (event_kind_resolution "W1" "worker" 5000
      { sampleEvent "bookings.documents.b1.update" with events := none }
      initialState (by decide)).2.2.2 (Or.inl rfl)⟩

/-! ## C5: the category suffix -/

/-- Claim C5, evaluated where it fails: for the category "deep-home-cleaning" a
create event for worker "U1" yields the message
"New job request — deep home-cleaning": `replace` with a string pattern
rewrites the first hyphen only, where replacing the hyphens gives
"deep home cleaning". -/
theorem category_suffix_replaces_first_hyphen_only :
    (subscribeToChanges "U1" "worker" 5000
      { payload := { customerId := some "C7", workerId := some "U1", status := some "pending",
                     serviceCategory := "deep-home-cleaning", updatedAt := 1000 }
        events := some ["bookings.documents.b1.create"] }
      initialState).notifications =
      [{ icon := some "📥", message := "New job request — deep home-cleaning",
         timestamp := 5000, unread := true }] ∧
    replaceAllChar '-' ' ' "deep-home-cleaning" = "deep home cleaning" := by
  decide

/-! ## C6: the status lookup -/

/-- Claim C6, evaluated where it fails: the status "constructor" is none of the
five recognized values, but `statusMessages["constructor"]` finds the property
inherited from `Object.prototype`, which is truthy, so the fallback after `||`
is not taken: icon and text are `undefined`, and the history entry for such a
document has no icon and the message "undefined — plumbing". -/
theorem status_lookup_inherited_property :
    "constructor" ∉ recognizedStatuses ∧
    statusInfo (some "constructor") = { icon := none, text := none } ∧
    (loadExistingNotifications
      (some [{ customerId := some "C7", workerId := some "U1", status := some "constructor",
               serviceCategory := "plumbing", updatedAt := 1000 }])
      initialState).notifications =
      [{ icon := none, message := "undefined — plumbing", timestamp := 1000, unread := false }] := by
  decide

/-! ## C7: the unread counter -/

/-- Claim C7: from a state with `unreadCount = 0`, after `N` calls of
`addNotification` the counter is `N`, for every `N`; and from any state with the
panel closed, a click on the bell opens the panel and sets the counter to 0 while
the list, and with it the unread flag of every entry, stays as it was. -/
theorem unreadCount_counts_additions (calls : List AddCall) (s0 s : NotificationState) :
    (s0.unreadCount = 0 → (addAll calls s0).unreadCount = calls.length) ∧
    (s.isOpen = false →
      (bellClick s).isOpen = true ∧ (bellClick s).unreadCount = 0 ∧
      (bellClick s).notifications = s.notifications ∧
      (bellClick s).notifications.map (fun n => n.unread) =
        s.notifications.map (fun n => n.unread)) := by
  constructor
  · intro h0
    rw [addAll_unreadCount, h0]; simp
  · intro hclosed
    have hb : bellClick s =
        updateBadge { s with isOpen := true, panelHidden := false, unreadCount := 0 } := by
      simp [bellClick, hclosed]
    rw [hb]
    simp [updateBadge_isOpen, updateBadge_unreadCount, updateBadge_notifications]

/-- Two additions from the initial state count 2, and opening the panel then
resets the counter. -/
theorem unreadCount_counts_additions_witness :
    (addAll [⟨some "📥", "a", 1⟩, ⟨none, "b", 2⟩] initialState).unreadCount = 2 ∧
    (bellClick (addAll [⟨some "📥", "a", 1⟩, ⟨none, "b", 2⟩] initialState)).unreadCount = 0 := by
  have h := unreadCount_counts_additions [⟨some "📥", "a", 1⟩, ⟨none, "b", 2⟩] initialState
    (addAll [⟨some "📥", "a", 1⟩, ⟨none, "b", 2⟩] initialState)
  exact ⟨h.1 rfl, (h.2 rfl).2.1⟩

/-! ## C8: the badge -/

/-- Claim C8: `updateBadge` hides the badge exactly when `unreadCount = 0`; for a
count from 1 to 9 the badge is visible and shows the count; for a count above 9
it is visible and shows "9+". -/
theorem updateBadge_display (s : NotificationState) :
    ((updateBadge s).badgeHidden = true ↔ s.unreadCount = 0) ∧
    (1 ≤ s.unreadCount → s.unreadCount ≤ 9 →
      (updateBadge s).badgeHidden = false ∧ (updateBadge s).badgeText = toString s.unreadCount) ∧
    (9 < s.unreadCount →
      (updateBadge s).badgeHidden = false ∧ (updateBadge s).badgeText = "9+") := by
  unfold updateBadge
  refine ⟨?_, ?_, ?_⟩
  · by_cases h : s.unreadCount > 0
    · simp [h]; omega
    · simp [h]; omega
  · intro h1 h9
    have h : s.unreadCount > 0 := by omega
    have h' : ¬ s.unreadCount > 9 := by omega
    simp [h, h']
  · intro h9
    have h : s.unreadCount > 0 := by omega
    simp [h, h9]

/-- The counts 0, 9 and 10: hidden, "9", "9+". -/
theorem updateBadge_display_witness :
    (updateBadge { initialState with unreadCount := 0 }).badgeHidden = true ∧
    ((updateBadge { initialState with unreadCount := 9 }).badgeHidden = false ∧
      (updateBadge { initialState with unreadCount := 9 }).badgeText = "9") ∧
    ((updateBadge { initialState with unreadCount := 10 }).badgeHidden = false ∧
      (updateBadge { initialState with unreadCount := 10 }).badgeText = "9+") :=
  ⟨(updateBadge_display { initialState with unreadCount := 0 }).1.2 rfl,
   (updateBadge_display { initialState with unreadCount := 9 }).2.1 (by decide) (by decide),
   (updateBadge_display { initialState with unreadCount := 10 }).2.2 (by decide)⟩

/-! ## C9: relative time -/

/-- Claim C9: with `s = floor((now - date) / 1000)`, `timeAgo` depends on `s`
only, and it is "Just now" for `s < 60`, `floor(s/60)` followed by "m ago" for
`60 ≤ s < 3600`, `floor(s/3600)` followed by "h ago" for `3600 ≤ s < 86400`, and
`floor(s/86400)` followed by "d ago" from `86400` on. -/
theorem timeAgo_thresholds (now date now2 date2 : Int) :
    ((now - date) / 1000 = (now2 - date2) / 1000 → timeAgo now date = timeAgo now2 date2) ∧
    ((now - date) / 1000 < 60 → timeAgo now date = "Just now") ∧
    (60 ≤ (now - date) / 1000 → (now - date) / 1000 < 3600 →
      timeAgo now date = toString ((now - date) / 1000 / 60) ++ "m ago") ∧
    (3600 ≤ (now - date) / 1000 → (now - date) / 1000 < 86400 →
      timeAgo now date = toString ((now - date) / 1000 / 3600) ++ "h ago") ∧
    (86400 ≤ (now - date) / 1000 →
      timeAgo now date = toString ((now - date) / 1000 / 86400) ++ "d ago") := by
  unfold timeAgo
  dsimp only
  refine ⟨?_, ?_, ?_, ?_, ?_⟩
  · intro h; rw [h]
  · intro h; simp [h]
  · intro h1 h2
    have : ¬ (now - date) / 1000 < 60 := by omega
    simp [this, h2]
  · intro h1 h2
    have a : ¬ (now - date) / 1000 < 60 := by omega
    have b : ¬ (now - date) / 1000 < 3600 := by omega
    simp [a, b, h2]
  · intro h1
    have a : ¬ (now - date) / 1000 < 60 := by omega
    have b : ¬ (now - date) / 1000 < 3600 := by omega
    have c : ¬ (now - date) / 1000 < 86400 := by omega
    simp [a, b, c]

/-- The ages 30 s, 90 s, 3661 s and 90000 s, and two timestamps within the same
second. -/
theorem timeAgo_thresholds_witness :
    timeAgo 30000 0 = "Just now" ∧ timeAgo 90000 0 = "1m ago" ∧
    timeAgo 3661000 0 = "1h ago" ∧ timeAgo 90000000 0 = "1d ago" ∧
    timeAgo 90999 0 = timeAgo 90000 0 :=
  ⟨(timeAgo_thresholds 30000 0 0 0).2.1 (by decide),
   (timeAgo_thresholds 90000 0 0 0).2.2.1 (by decide) (by decide),
   (timeAgo_thresholds 3661000 0 0 0).2.2.2.1 (by decide) (by decide),
   (timeAgo_thresholds 90000000 0 0 0).2.2.2.2 (by decide),
   (timeAgo_thresholds 90999 0 90000 0).1 (by decide)⟩

/-! ## C10: the history load -/

/-- Claim C10, evaluated where it fails.  The history load does append one read
entry per document with the update time of the document, but the icon and the
message are not always those of the status table and of the category with its
hyphens replaced.  For the pending document with category "deep-home-cleaning"
the message is "New booking request received — deep home-cleaning", where the
specification gives "New booking request received — deep home cleaning"; for
the same category with status "constructor" the entry has no icon and the
message "undefined — deep home-cleaning", where the specification gives the
fallback icon 📋 and "Booking updated — deep home cleaning". -/
theorem history_entry_departs_from_status_table_and_suffix :
    (loadExistingNotifications (some [threeWordDoc]) initialState).notifications =
      [{ icon := some "🕐", message := "New booking request received — deep home-cleaning",
         timestamp := 1000, unread := false }] ∧
    specHistoryEntry threeWordDoc =
      { icon := some "🕐", message := "New booking request received — deep home cleaning",
        timestamp := 1000, unread := false } ∧
    (loadExistingNotifications (some [inheritedStatusDoc]) initialState).notifications =
      [{ icon := none, message := "undefined — deep home-cleaning",
         timestamp := 1000, unread := false }] ∧
    specHistoryEntry inheritedStatusDoc =
      { icon := some "📋", message := "Booking updated — deep home cleaning",
        timestamp := 1000, unread := false } ∧
    (loadExistingNotifications (some [threeWordDoc]) initialState).notifications ≠
      [specHistoryEntry threeWordDoc] ∧
    (loadExistingNotifications (some [inheritedStatusDoc]) initialState).notifications ≠
      [specHistoryEntry inheritedStatusDoc] := by
  decide

end GodServices
